import Mathlib

/-!
Verification of the imdb_scraper repository against its specification.

Shallow embedding of the extraction, persistence and middleware logic:
* `iso_to_minutes`, `extract_actors`, `parse_index` embed the pure
  extraction functions of `spiders/imdb_top_bs.py`;
* `insert_movie`, `insert_actor`, `csv_process_item` embed the persistence
  pipelines of `pipelines.py` (database state is an explicit list of rows);
* `set_proxy`, `process_request`, `process_response`, `mw_process_request`
  embed the middlewares of `middlewares.py` (random choice is modelled by an
  oracle index `k`; the framework retry helper is modelled from its documented
  behaviour: a copy of the request preserving its meta, while budget remains).
-/

namespace ImdbScraper

/-- Decimal value of a digit run, as Python's `int` on a matched group. -/
def natOfDigits (ds : List Char) : Nat :=
  ds.foldl (fun a c => a * 10 + (c.toNat - '0'.toNat)) 0

/-- One attempt of the regex `(\d+)C` at a fixed start position: it matches
precisely when a non-empty maximal digit run starts here and is immediately
followed by the character `c` (the greedy group cannot shrink, since a shrunk
run would be followed by a digit, not by `c`). -/
def matchNumAt (c : Char) (l : List Char) : Option Nat :=
  let run := l.takeWhile Char.isDigit
  if run.isEmpty then none
  else
    match l.dropWhile Char.isDigit with
    | y :: _ => if y = c then some (natOfDigits run) else none
    | [] => none

/-- Embeds `re.search` of `(\d+)C` over the string: leftmost start position wins. -/
def searchNumBefore (c : Char) : List Char → Option Nat
  | [] => none
  | x :: xs =>
    match matchNumAt c (x :: xs) with
    | some n => some n
    | none => searchNumBefore c xs

/-- Embeds `ImdbTopBsSpider._iso_to_minutes`: `None`/empty input gives `None`; else
hours and minutes are taken from the `(\d+)H` and `(\d+)M` searches (an absent
component contributes 0) and `total or None` maps a zero total to `None`. -/
def iso_to_minutes : Option String → Option Nat
  | none => none
  | some s =>
    if s.isEmpty then none
    else
      let total :=
        (searchNumBefore 'H' s.data).getD 0 * 60 + (searchNumBefore 'M' s.data).getD 0
      if total = 0 then none else some total

example : iso_to_minutes (some "PT2H22M") = some 142 := by decide
example : iso_to_minutes (some "PT45M") = some 45 := by decide
example : iso_to_minutes (some "PT0H0M") = none := by decide
example : iso_to_minutes (some "") = none := by decide
example : iso_to_minutes (some "nonsense") = none := by decide

/-- An `ActorItem` of `items.py` (also the dict built by `_extract_actors`). -/
structure ActorItem where
  movie_title : String
  actor_name : String
  position_order : Nat
deriving DecidableEq, Repr

/-- The loop body of `_extract_actors`: a `(pos, div)` pair from `enumerate`
becomes a dict when the div holds an actor link, and nothing otherwise. -/
def cast_entry (movie_title : String) (p : Nat × Option String) : Option ActorItem :=
  match p.2 with
  | some name => some ⟨movie_title, name, p.1⟩
  | none => none

/-- Embeds `ImdbTopBsSpider._extract_actors`. The DOM query layer is abstracted:
the input is the cast section if present, as the list of its cast-item divs
in document order, each carrying the actor link's text if the link exists.
`enumerate(items[:3], start=1)` numbers the first three divs 1,2,3; a div
without an actor link appends nothing but still consumes its position. -/
def extract_actors (cast_sec : Option (List (Option String))) (movie_title : String) :
    List ActorItem :=
  match cast_sec with
  | none => []
  | some divs => (List.enumFrom 1 (divs.take 3)).filterMap (cast_entry movie_title)

/-- One element of the JSON-LD `itemListElement` array: `movie["name"]`,
`movie["url"]`, optional `aggregateRating.ratingValue`, optional `duration`. -/
structure IndexMovie where
  name : String
  url : String
  aggregateRating : Option Rat
  duration : Option String
deriving DecidableEq, Repr

/-- Outcome of `json.loads` on the ld+json script text (the JSON parser is an
external capability; its verdict on the blob is part of the input). -/
inductive ScriptContent
  | malformed
  | valid (elems : List IndexMovie)
deriving DecidableEq, Repr

/-- The index payload as seen by `parse`: the `application/ld+json` script
block containing "ItemList", if `soup.find` locates one. -/
structure IndexDoc where
  ld_json_script : Option ScriptContent
deriving DecidableEq, Repr

/-- The meta dict plus detail URL carried into each `response.follow`. -/
structure WorkItem where
  title : String
  rating : Option Rat
  duration_iso : Option String
  url : String
deriving DecidableEq, Repr

/-- Result of the index-parse step: the two `logger.error` early returns
(missing block, invalid JSON) against the list of detail requests yielded. -/
inductive ParseResult
  | formatError (msg : String)
  | ok (ws : List WorkItem)
deriving DecidableEq, Repr

/-- Embeds `ImdbTopBsSpider.parse`: find the ld+json block (error if absent), parse
it (error if invalid), keep `itemListElement[:50]`, and build one detail
request per element carrying title, rating and duration forward. -/
def parse_index (doc : IndexDoc) : ParseResult :=
  match doc.ld_json_script with
  | none => ParseResult.formatError "No se encontro el bloque ItemList JSON-LD"
  | some ScriptContent.malformed => ParseResult.formatError "JSON-LD invalido"
  | some (ScriptContent.valid elems) =>
    ParseResult.ok ((elems.take 50).map fun m =>
      { title := m.name, rating := m.aggregateRating, duration_iso := m.duration, url := m.url })

/-- Detail requests actually yielded by `parse`: none on either error path. -/
def detail_requests (doc : IndexDoc) : List WorkItem :=
  match parse_index doc with
  | ParseResult.formatError _ => []
  | ParseResult.ok ws => ws

/-- Detail requests for a well-formed listing with elements `elems`. -/
def index_work_items (elems : List IndexMovie) : List WorkItem :=
  detail_requests ⟨some (ScriptContent.valid elems)⟩

/-- A `MovieItem` of `items.py`. -/
structure MovieItem where
  title : String
  year : Option Int
  rating : Option Rat
  duration : Option Int
  metascore : Option Int
deriving DecidableEq, Repr

/-- A row of the `peliculas` table of `PostgresPipeline._setup_tables`. -/
structure MovieRow where
  id : Nat
  titulo : String
  anio : Option Int
  calificacion : Option Rat
  duracion : Option Int
  metascore : Option Int
deriving DecidableEq, Repr

/-- A row of the `actores` table. -/
structure ActorRow where
  id : Nat
  pelicula_id : Nat
  nombre : String
  posicion_orden : Nat
deriving DecidableEq, Repr

/-- The persisted relational state: both tables, plus the autoincrement
counters that produce the serial `id` columns. -/
structure PgState where
  movies : List MovieRow
  actors : List ActorRow
  next_movie_id : Nat
  next_actor_id : Nat
deriving DecidableEq, Repr

/-- Comparison of the `anio` column under the unique-constraint arbiter:
PostgreSQL unique constraints treat NULLs as distinct (default
NULLS DISTINCT), so a NULL year never conflicts with anything, a NULL
year of the earlier row included. -/
def anioConflict : Option Int → Option Int → Bool
  | some a, some b => a == b
  | _, _ => false

/-- The `(titulo, anio)` conflict target of `uq_pelicula_unique`: equal
titles and equal, non-NULL years. -/
def movieKeyMatches (it : MovieItem) (r : MovieRow) : Bool :=
  r.titulo == it.title && anioConflict r.anio it.year

/-- Rows holding a given `(titulo, anio)` natural key. -/
def keyCount (db : PgState) (title : String) (year : Option Int) : Nat :=
  (db.movies.filter fun r => r.titulo == title && r.anio == year).length

/-- Embeds `PostgresPipeline._insert_movie`: an `INSERT .. ON CONFLICT (titulo, anio)
DO NOTHING`. A conflicting row leaves the state untouched (rowcount 0 is
`pass`); otherwise a fresh row with the next serial id is appended. Because
the arbiter compares NULLs as distinct, an item with `year = none` never
conflicts and is appended on every write. -/
def insert_movie (db : PgState) (it : MovieItem) : PgState :=
  if db.movies.any (movieKeyMatches it) then db
  else
    { db with
      movies := db.movies ++
        [⟨db.next_movie_id, it.title, it.year, it.rating, it.duration, it.metascore⟩],
      next_movie_id := db.next_movie_id + 1 }

/-- Embeds `PostgresPipeline._insert_actor`: select the first `peliculas` row whose
`titulo` equals the item's `movie_title`; if none, log a warning and return
(the state is untouched and no exception escapes); otherwise plainly insert
an `actores` row referencing that movie's id. -/
def insert_actor (db : PgState) (it : ActorItem) : PgState :=
  match db.movies.find? (fun r => r.titulo == it.movie_title) with
  | none => db
  | some row =>
    { db with
      actors := db.actors ++ [⟨db.next_actor_id, row.id, it.actor_name, it.position_order⟩],
      next_actor_id := db.next_actor_id + 1 }

/-- The tagged union of the two record kinds routed by `process_item`. -/
inductive Item
  | movie (m : MovieItem)
  | actor (a : ActorItem)
deriving DecidableEq, Repr

/-- Embeds `PostgresPipeline.process_item`: dispatch on the runtime record kind. -/
def pg_process_item (db : PgState) (it : Item) : PgState :=
  match it with
  | Item.movie m => insert_movie db m
  | Item.actor a => insert_actor db a

/-- The two open CSV files of `CsvExportPipeline`, as the rows written. -/
structure CsvState where
  movie_rows : List MovieItem
  actor_rows : List ActorItem
deriving DecidableEq, Repr

/-- Embeds `CsvExportPipeline.process_item`: `writerow` appends one row to the file
matching the record kind; there is no dedup of any sort. -/
def csv_process_item (st : CsvState) (it : Item) : CsvState :=
  match it with
  | Item.movie m => { st with movie_rows := st.movie_rows ++ [m] }
  | Item.actor a => { st with actor_rows := st.actor_rows ++ [a] }

/-- A scrapy request as the proxy middleware sees it: its URL, the
`meta["proxy"]` slot, and the `meta["retry_times"]` counter. -/
structure Req where
  url : String
  proxy : Option String
  retry_times : Nat
deriving DecidableEq, Repr

/-- State of `MixedProxyMiddleware`: `settings.PROXIES` and `current_proxy`. -/
structure ProxyState where
  proxies : List String
  current_proxy : Option String
deriving DecidableEq, Repr

/-- Embeds `_choose_proxy`: `random.choice(self.proxies)` when the pool is non-empty
(randomness is modelled by the oracle index `k`), else `None`. -/
def choose_proxy (st : ProxyState) (k : Nat) : Option String :=
  if st.proxies.isEmpty then none else st.proxies.get? (k % st.proxies.length)

/-- Embeds `_set_proxy`: pick a proxy; if one exists, store it in the request's meta
and, when it differs from `current_proxy`, record it as current (the external
IP lookup is observability only: its failure is swallowed). -/
def set_proxy (st : ProxyState) (k : Nat) (r : Req) : ProxyState × Req :=
  match choose_proxy st k with
  | none => (st, r)
  | some p =>
    ((if some p = st.current_proxy then st else { st with current_proxy := some p }),
     { r with proxy := some p })

/-- Embeds `MixedProxyMiddleware.process_request`: assign a proxy only when the
request's meta does not already carry one. -/
def process_request (st : ProxyState) (k : Nat) (r : Req) : ProxyState × Req :=
  match r.proxy with
  | some _ => (st, r)
  | none => set_proxy st k r

/-- The framework `RetryMiddleware._retry` helper, modelled from its
documented behaviour: while the retry budget remains it returns a copy of the
request — meta, proxy included, is preserved — with `retry_times` bumped;
once `max_retry_times` is exhausted it returns `None`. -/
def retry_copy (max_retry_times : Nat) (r : Req) : Option Req :=
  if r.retry_times + 1 ≤ max_retry_times then
    some { r with retry_times := r.retry_times + 1 }
  else none

/-- What `process_response` hands back downstream. -/
inductive RespResult
  | retry (r : Req)
  | response (status : Nat)
deriving DecidableEq, Repr

/-- Embeds `MixedProxyMiddleware.process_response`: a 403 or 429 status is a block
signal, answered by `self._retry(request, reason, spider) or response`. -/
def process_response (max_retry_times : Nat) (r : Req) (status : Nat) : RespResult :=
  if status = 403 ∨ status = 429 then
    match retry_copy max_retry_times r with
    | some r2 => RespResult.retry r2
    | none => RespResult.response status
  else RespResult.response status

/-- Embeds `MixedProxyMiddleware.process_exception` on a connection-level error
(timeout, refused): reassign the proxy and resubmit the same request. -/
def process_exception_conn (st : ProxyState) (k : Nat) (r : Req) : ProxyState × Req :=
  set_proxy st k r

/-- The embedded fallback identity list of `RandomUserAgentMiddleware`. -/
def fallback_agents : List String :=
  ["Mozilla/5.0 (Windows NT 10.0; Win64; x64) AppleWebKit/537.36 (KHTML, like Gecko) Chrome/115.0.0.0 Safari/537.36",
   "Mozilla/5.0 (X11; Linux x86_64) AppleWebKit/537.36 (KHTML, like Gecko) Chrome/114.0.5735.198 Safari/537.36",
   "Mozilla/5.0 (Macintosh; Intel Mac OS X 10_15_7) AppleWebKit/605.1.15 (KHTML, like Gecko) Version/14.1 Safari/605.1.15",
   "Mozilla/5.0 (Windows NT 10.0; Win64; x64; rv:115.0) Gecko/20100101 Firefox/115.0"]

/-- Embeds the `.random` draw of a working `UserAgent`, and `random.choice` on the fallback
list: an oracle-indexed pick that always yields a string. -/
def pick_ua (pool : List String) (k : Nat) : String :=
  pool.getD (k % pool.length) ""

/-- State of `RandomUserAgentMiddleware` after `__init__` ran with the primary
identity source available (`some pool`) or failing (`none`): the `except`
branch installs the embedded fallback list instead of propagating. -/
structure UAState where
  ua_pool : Option (List String)
  fallbacks : List String
deriving DecidableEq, Repr

/-- Embeds `RandomUserAgentMiddleware.__init__` under `try/except`. -/
def mw_init (src : Option (List String)) : UAState :=
  match src with
  | some pool => { ua_pool := some pool, fallbacks := [] }
  | none => { ua_pool := none, fallbacks := fallback_agents }

/-- Embeds `RandomUserAgentMiddleware.process_request`: choose from the pool if the
`UserAgent` exists, else from the fallback list; `headers.setdefault` keeps a
User-Agent already present. Returns the request's final User-Agent header. -/
def mw_process_request (st : UAState) (k : Nat) (ua_header : Option String) : Option String :=
  let chosen :=
    match st.ua_pool with
    | some pool => pick_ua pool k
    | none => pick_ua st.fallbacks k
  match ua_header with
  | some h => some h
  | none => some chosen

/-- The spider's own per-request assignment when building detail requests:
`headers={"User-Agent": UserAgent().random}` in `parse` constructs the
primary source with no `try/except`, so an unavailable source raises out of
the callback instead of falling back. -/
def spider_build_detail_ua (src : Option (List String)) (k : Nat) : Except String String :=
  match src with
  | some pool => Except.ok (pick_ua pool k)
  | none => Except.error "fake_useragent source unavailable"

/-- Discriminates the error arm of `ParseResult`. -/
def isFormatError : ParseResult → Bool
  | ParseResult.formatError _ => true
  | ParseResult.ok _ => false

/-- C1: `_iso_to_minutes` returns 142 on "PT2H22M", 45 on "PT45M", `none` on
an absent input and on "PT0H0M"; in general the result is hours×60+minutes
from the matched `(\d+)H` and `(\d+)M` components with unmatched components
contributing 0, an unrecognized token never fails (the function is total and
lands in `none`), and a zero total yields `none`. -/
theorem iso_to_minutes_spec :
    iso_to_minutes (some "PT2H22M") = some 142 ∧
    iso_to_minutes (some "PT45M") = some 45 ∧
    iso_to_minutes none = none ∧
    iso_to_minutes (some "PT0H0M") = none ∧
    ∀ s : String,
      iso_to_minutes (some s) =
        if s.isEmpty ∨
            (searchNumBefore 'H' s.data).getD 0 * 60 + (searchNumBefore 'M' s.data).getD 0 = 0
        then none
        else some ((searchNumBefore 'H' s.data).getD 0 * 60
          + (searchNumBefore 'M' s.data).getD 0) := by
  refine ⟨by decide, by decide, rfl, by decide, fun s => ?_⟩
  simp only [iso_to_minutes]
  by_cases he : s.isEmpty
  · simp [he]
  · by_cases ht :
      (searchNumBefore 'H' s.data).getD 0 * 60 + (searchNumBefore 'M' s.data).getD 0 = 0
    · simp [he, ht]
    · simp [he, ht]

/-- C10: `_iso_to_minutes` never yields 0 — the result is `none` or strictly
positive — and the empty string (falsy in Python) behaves like an absent
input. -/
theorem iso_to_minutes_positive :
    (∀ (o : Option String) (n : Nat), iso_to_minutes o = some n → 0 < n) ∧
    iso_to_minutes (some "") = none ∧
    iso_to_minutes (some "") = iso_to_minutes none := by
  refine ⟨?_, by decide, by decide⟩
  intro o n h
  cases o with
  | none => simp [iso_to_minutes] at h
  | some s =>
    simp only [iso_to_minutes] at h
    by_cases he : s.isEmpty
    · simp [he] at h
    · by_cases ht :
        (searchNumBefore 'H' s.data).getD 0 * 60 + (searchNumBefore 'M' s.data).getD 0 = 0
      · simp [he, ht] at h
      · simp [he, ht] at h
        omega

/-- Witness for C10 at a concrete input. -/
theorem iso_to_minutes_positive_witness : 0 < 142 :=
  iso_to_minutes_positive.1 (some "PT2H22M") 142 (by decide)

/-- C5: `_insert_actor` on a `CastEntry` whose movie title matches no catalog
row leaves the state untouched (the lookup-failed branch only logs a warning
and returns — no exception path exists), and any subsequent write behaves as
if the failed write had never happened. -/
theorem insert_actor_missing_movie_noop :
    ∀ (db : PgState) (it : ActorItem),
      (∀ r ∈ db.movies, r.titulo ≠ it.movie_title) →
      insert_actor db it = db ∧
      ∀ it2 : Item, pg_process_item (insert_actor db it) it2 = pg_process_item db it2 := by
  intro db it h
  have hf : db.movies.find? (fun r => r.titulo == it.movie_title) = none := by
    rw [List.find?_eq_none]
    intro r hr
    simpa using h r hr
  have hnoop : insert_actor db it = db := by
    unfold insert_actor
    rw [hf]
  exact ⟨hnoop, fun it2 => by rw [hnoop]⟩

/-- Witness for C5 at a concrete input. -/
theorem insert_actor_missing_movie_noop_witness :
    insert_actor ⟨[⟨1, "Heat", some 1995, none, none, none⟩], [], 2, 1⟩
        ⟨"Missing Movie", "Al Pacino", 1⟩ =
      ⟨[⟨1, "Heat", some 1995, none, none, none⟩], [], 2, 1⟩ :=
  (insert_actor_missing_movie_noop ⟨[⟨1, "Heat", some 1995, none, none, none⟩], [], 2, 1⟩
    ⟨"Missing Movie", "Al Pacino", 1⟩ (by decide)).1

/-- C7: when the ld+json block is absent or its content malformed, `parse`
reports a format error and yields zero work items, so no detail request is
ever issued for that run. -/
theorem parse_index_missing_block_fatal :
    ∀ doc : IndexDoc,
      (doc.ld_json_script = none ∨ doc.ld_json_script = some ScriptContent.malformed) →
      isFormatError (parse_index doc) = true ∧ detail_requests doc = [] := by
  intro doc h
  obtain ⟨s⟩ := doc
  rcases h with h | h <;> subst h <;> exact ⟨rfl, rfl⟩

/-- Witness for C7 at a concrete input. -/
theorem parse_index_missing_block_fatal_witness :
    isFormatError (parse_index ⟨none⟩) = true ∧ detail_requests ⟨none⟩ = [] :=
  parse_index_missing_block_fatal ⟨none⟩ (Or.inl rfl)

/-- The unique constraint `uq_pelicula_unique` as a state invariant: under
NULLS DISTINCT it only bounds rows with a present (non-NULL) year. -/
def uniqueNaturalKeys (db : PgState) : Prop :=
  ∀ title (y : Int), keyCount db title (some y) ≤ 1

lemma movieKeyMatches_eq (it : MovieItem) (y : Int) (hy : it.year = some y) (r : MovieRow) :
    movieKeyMatches it r = (r.titulo == it.title && r.anio == it.year) := by
  unfold movieKeyMatches
  rw [hy]
  cases h : r.anio with
  | none => rfl
  | some a => rfl

lemma movieKeyMatches_none (it : MovieItem) (hy : it.year = none) (r : MovieRow) :
    movieKeyMatches it r = false := by
  unfold movieKeyMatches
  rw [hy]
  cases h : r.anio with
  | none => simp [anioConflict]
  | some a => simp [anioConflict]

lemma keyCount_eq (db : PgState) (it : MovieItem) (y : Int) (hy : it.year = some y) :
    keyCount db it.title it.year = (db.movies.filter (movieKeyMatches it)).length := by
  unfold keyCount
  congr 1
  exact List.filter_congr fun r _ => (movieKeyMatches_eq it y hy r).symm

lemma insert_movie_of_any_true (db : PgState) (it : MovieItem)
    (h : db.movies.any (movieKeyMatches it) = true) : insert_movie db it = db := by
  unfold insert_movie
  simp [h]

lemma insert_movie_movies_of_any_false (db : PgState) (it : MovieItem)
    (h : db.movies.any (movieKeyMatches it) = false) :
    (insert_movie db it).movies = db.movies ++
      [⟨db.next_movie_id, it.title, it.year, it.rating, it.duration, it.metascore⟩] := by
  unfold insert_movie
  simp [h]

lemma filter_key_nil_of_any_false (db : PgState) (it : MovieItem)
    (h : db.movies.any (movieKeyMatches it) = false) :
    db.movies.filter (movieKeyMatches it) = [] := by
  rw [List.filter_eq_nil_iff]
  intro r hr
  exact (List.any_eq_false.mp h) r hr

lemma filter_plain_nil_of_any_false (db : PgState) (it : MovieItem) (y : Int)
    (hy : it.year = some y) (h : db.movies.any (movieKeyMatches it) = false) :
    db.movies.filter (fun r => r.titulo == it.title && r.anio == it.year) = [] := by
  rw [List.filter_eq_nil_iff]
  intro r hr
  have hnot := (List.any_eq_false.mp h) r hr
  rw [movieKeyMatches_eq it y hy r] at hnot
  exact hnot

lemma insert_movie_mem_key (db : PgState) (it : MovieItem) (y : Int) (hy : it.year = some y) :
    (insert_movie db it).movies.any (movieKeyMatches it) = true := by
  cases h : db.movies.any (movieKeyMatches it) with
  | true => rw [insert_movie_of_any_true db it h]; exact h
  | false =>
    rw [insert_movie_movies_of_any_false db it h, List.any_append]
    have hnew : movieKeyMatches it
        ⟨db.next_movie_id, it.title, it.year, it.rating, it.duration, it.metascore⟩ = true := by
      rw [movieKeyMatches_eq it y hy]
      simp
    simp [hnew]

lemma insert_movie_idem (db : PgState) (it : MovieItem) (y : Int) (hy : it.year = some y) :
    insert_movie (insert_movie db it) it = insert_movie db it :=
  insert_movie_of_any_true _ _ (insert_movie_mem_key db it y hy)

lemma insert_movie_none_appends (db : PgState) (it : MovieItem) (hy : it.year = none) :
    (insert_movie db it).movies = db.movies ++
      [⟨db.next_movie_id, it.title, it.year, it.rating, it.duration, it.metascore⟩] := by
  apply insert_movie_movies_of_any_false
  rw [List.any_eq_false]
  intro r hr
  simp [movieKeyMatches_none it hy r]

/-- C3 counterexample: a catalog entry with `year = None`. The arbiter of
`ON CONFLICT (titulo, anio)` compares NULLs as distinct, so the second write
of the very same entry never conflicts: the state after two writes holds two
rows with that `(titulo, NULL)` key, refuting both the exactly-one-row part
and the writes-twice-equals-once part of the claim for this input. -/
theorem insert_movie_null_year_cex :
    keyCount (insert_movie (insert_movie ⟨[], [], 1, 1⟩ ⟨"Heat", none, none, none, none⟩)
        ⟨"Heat", none, none, none, none⟩) "Heat" none = 2 ∧
    insert_movie (insert_movie ⟨[], [], 1, 1⟩ ⟨"Heat", none, none, none, none⟩)
        ⟨"Heat", none, none, none, none⟩ ≠
      insert_movie ⟨[], [], 1, 1⟩ ⟨"Heat", none, none, none, none⟩ := by
  constructor <;> decide

/-- C3 as amended: for a catalog entry whose year is present, the duplicate
write changes nothing (so no field of the first row is overwritten) and,
under the table's unique constraint, exactly one row holds the `(title,
year)` key afterwards, the constraint being preserved; for an entry with
`year = None` the NULLS DISTINCT arbiter never fires and every write appends
a fresh row. -/
theorem insert_movie_natural_key :
    ∀ (db : PgState) (it : MovieItem),
      (∀ y : Int, it.year = some y →
        insert_movie (insert_movie db it) it = insert_movie db it ∧
        (uniqueNaturalKeys db →
          keyCount (insert_movie (insert_movie db it) it) it.title it.year = 1 ∧
          uniqueNaturalKeys (insert_movie (insert_movie db it) it))) ∧
      (it.year = none →
        (insert_movie db it).movies = db.movies ++
          [⟨db.next_movie_id, it.title, it.year, it.rating, it.duration, it.metascore⟩]) := by
  intro db it
  refine ⟨fun y hy => ?_, fun hy => insert_movie_none_appends db it hy⟩
  refine ⟨insert_movie_idem db it y hy, fun hu => ?_⟩
  rw [insert_movie_idem db it y hy]
  constructor
  · cases h : db.movies.any (movieKeyMatches it) with
    | true =>
      rw [insert_movie_of_any_true db it h, keyCount_eq db it y hy]
      obtain ⟨r, hr, hp⟩ := List.any_eq_true.mp h
      have hmem : r ∈ db.movies.filter (movieKeyMatches it) := List.mem_filter.mpr ⟨hr, hp⟩
      have h1 : 0 < (db.movies.filter (movieKeyMatches it)).length :=
        List.length_pos.mpr (List.ne_nil_of_mem hmem)
      have h2 := hu it.title y
      rw [← hy, keyCount_eq db it y hy] at h2
      omega
    | false =>
      rw [keyCount_eq _ it y hy]
      have hmov := insert_movie_movies_of_any_false db it h
      have hnew : movieKeyMatches it
          ⟨db.next_movie_id, it.title, it.year, it.rating, it.duration, it.metascore⟩ = true := by
        rw [movieKeyMatches_eq it y hy]
        simp
      rw [show (insert_movie db it).movies = db.movies ++
            [⟨db.next_movie_id, it.title, it.year, it.rating, it.duration, it.metascore⟩]
          from hmov,
        List.filter_append, filter_key_nil_of_any_false db it h]
      simp [hnew]
  · intro title y'
    cases h : db.movies.any (movieKeyMatches it) with
    | true => rw [insert_movie_of_any_true db it h]; exact hu title y'
    | false =>
      have hu2 := hu title y'
      unfold keyCount at hu2 ⊢
      rw [insert_movie_movies_of_any_false db it h, List.filter_append, List.length_append]
      by_cases hk : (it.title == title && (it.year == (some y' : Option Int))) = true
      · rw [Bool.and_eq_true] at hk
        obtain ⟨hk1, hk2⟩ := hk
        have ht : it.title = title := by simpa using hk1
        have hy' : it.year = some y' := by simpa using hk2
        have hfil : db.movies.filter (fun r => r.titulo == title && r.anio == some y') = [] := by
          rw [← ht, ← hy']
          exact filter_plain_nil_of_any_false db it y' hy' h
        rw [hfil]
        simp [ht, hy']
      · have hsing : ([⟨db.next_movie_id, it.title, it.year, it.rating, it.duration,
            it.metascore⟩] :
            List MovieRow).filter (fun r => r.titulo == title && r.anio == some y') = [] := by
          simp only [List.filter, hk]
        rw [hsing]
        simpa using hu2

/-- Witness for the amended C3 at a concrete input. -/
theorem insert_movie_natural_key_witness :
    keyCount (insert_movie (insert_movie ⟨[], [], 1, 1⟩ ⟨"Heat", some 1995, none, none, none⟩)
        ⟨"Heat", some 1995, none, none, none⟩) "Heat" (some 1995) = 1 ∧
    (insert_movie ⟨[], [], 1, 1⟩ ⟨"Alien", none, none, none, none⟩).movies =
      [] ++ [⟨1, "Alien", none, none, none, none⟩] :=
  ⟨((((insert_movie_natural_key ⟨[], [], 1, 1⟩ ⟨"Heat", some 1995, none, none, none⟩).1
      1995 rfl).2 (fun _ _ => Nat.zero_le 1))).1,
   (insert_movie_natural_key ⟨[], [], 1, 1⟩ ⟨"Alien", none, none, none, none⟩).2 rfl⟩

/-- C4 counterexample: duplicate consumption is observably different from a
single consumption for the file sink (one extra CSV row) and for the
relational cast write (one extra `actores` row) — the claim that every sink
write is idempotent fails at these concrete inputs. -/
theorem sink_idempotence_cex :
    csv_process_item (csv_process_item ⟨[], []⟩
        (Item.movie ⟨"Heat", some 1995, none, none, none⟩))
        (Item.movie ⟨"Heat", some 1995, none, none, none⟩) ≠
      csv_process_item ⟨[], []⟩ (Item.movie ⟨"Heat", some 1995, none, none, none⟩) ∧
    insert_actor (insert_actor ⟨[⟨1, "Heat", some 1995, none, none, none⟩], [], 2, 1⟩
        ⟨"Heat", "Al Pacino", 1⟩) ⟨"Heat", "Al Pacino", 1⟩ ≠
      insert_actor ⟨[⟨1, "Heat", some 1995, none, none, none⟩], [], 2, 1⟩
        ⟨"Heat", "Al Pacino", 1⟩ := by
  constructor <;> decide

/-- C4 as amended: the only idempotent sink write is the relational catalog
write for an entry whose year is present; a catalog entry with `year = None`
is appended on every write (NULLS DISTINCT arbiter), the file sink appends
one row per consumed record of either kind, and the relational cast write
appends a fresh `actores` row on every consume whose referenced movie
exists. -/
theorem sink_write_semantics :
    ∀ (db : PgState) (m : MovieItem) (a : ActorItem) (st : CsvState),
      (∀ y : Int, m.year = some y →
        insert_movie (insert_movie db m) m = insert_movie db m) ∧
      (m.year = none →
        (insert_movie db m).movies = db.movies ++
          [⟨db.next_movie_id, m.title, m.year, m.rating, m.duration, m.metascore⟩]) ∧
      (csv_process_item st (Item.movie m)).movie_rows = st.movie_rows ++ [m] ∧
      (csv_process_item st (Item.actor a)).actor_rows = st.actor_rows ++ [a] ∧
      ∀ row, db.movies.find? (fun r => r.titulo == a.movie_title) = some row →
        (insert_actor db a).actors =
          db.actors ++ [⟨db.next_actor_id, row.id, a.actor_name, a.position_order⟩] := by
  intro db m a st
  refine ⟨fun y hy => insert_movie_idem db m y hy, fun hy => insert_movie_none_appends db m hy,
    rfl, rfl, fun row hrow => ?_⟩
  unfold insert_actor
  rw [hrow]

/-- Witness for the amended C4 at concrete inputs. -/
theorem sink_write_semantics_witness :
    insert_movie (insert_movie ⟨[], [], 1, 1⟩ ⟨"Heat", some 1995, none, none, none⟩)
        ⟨"Heat", some 1995, none, none, none⟩ =
      insert_movie ⟨[], [], 1, 1⟩ ⟨"Heat", some 1995, none, none, none⟩ ∧
    (insert_actor ⟨[⟨1, "Heat", some 1995, none, none, none⟩], [], 2, 1⟩
        ⟨"Heat", "Al Pacino", 1⟩).actors = [] ++ [⟨1, 1, "Al Pacino", 1⟩] :=
  ⟨(sink_write_semantics ⟨[], [], 1, 1⟩ ⟨"Heat", some 1995, none, none, none⟩
      ⟨"Heat", "Al Pacino", 1⟩ ⟨[], []⟩).1 1995 rfl,
   (sink_write_semantics ⟨[⟨1, "Heat", some 1995, none, none, none⟩], [], 2, 1⟩
      ⟨"Heat", some 1995, none, none, none⟩ ⟨"Heat", "Al Pacino", 1⟩ ⟨[], []⟩).2.2.2.2
     ⟨1, "Heat", some 1995, none, none, none⟩ (by decide)⟩

/-- C6 counterexample: a 403 response is retried, but the retried request is
the copy of the blocked one, proxy "p1" still in its meta, so
`process_request` leaves it alone — even though a fresh assignment under the
same oracle would pick "p2". The claim that the retry carries a newly
assigned egress route fails at this concrete input. -/
theorem block_signal_reassignment_cex :
    process_response 5 ⟨"u", some "p1", 0⟩ 403 = RespResult.retry ⟨"u", some "p1", 1⟩ ∧
    choose_proxy ⟨["p1", "p2"], some "p1"⟩ 1 = some "p2" ∧
    (process_request ⟨["p1", "p2"], some "p1"⟩ 1 ⟨"u", some "p1", 1⟩).2.proxy = some "p1" := by
  refine ⟨by decide, by decide, by decide⟩

/-- C6 as amended: a 403 or 429 status is classified as a retryable block
signal and retried while the budget remains, but the retried request keeps
the meta of the blocked attempt — including its egress route — and
`process_request` does not reassign a route that is already set; route
reassignment happens only through `process_exception` on connection-level
errors. -/
theorem block_signal_retry_keeps_route :
    ∀ (maxr : Nat) (r : Req) (status : Nat) (st : ProxyState) (k : Nat),
      (status = 403 ∨ status = 429) → r.retry_times < maxr →
      process_response maxr r status =
        RespResult.retry { r with retry_times := r.retry_times + 1 } ∧
      ({ r with retry_times := r.retry_times + 1 } : Req).proxy = r.proxy ∧
      (∀ p, r.proxy = some p →
        process_request st k { r with retry_times := r.retry_times + 1 } =
          (st, { r with retry_times := r.retry_times + 1 })) := by
  intro maxr r status st k hs hb
  refine ⟨?_, rfl, ?_⟩
  · unfold process_response retry_copy
    rw [if_pos hs, if_pos (by omega)]
  · intro p hp
    unfold process_request
    simp only [hp]

/-- Witness for the amended C6 at a concrete input. -/
theorem block_signal_retry_keeps_route_witness :
    process_response 5 ⟨"detail-url", some "p1", 0⟩ 403 =
      RespResult.retry ⟨"detail-url", some "p1", 1⟩ ∧
    process_request ⟨["p1", "p2"], some "p1"⟩ 0 ⟨"detail-url", some "p1", 1⟩ =
      (⟨["p1", "p2"], some "p1"⟩, ⟨"detail-url", some "p1", 1⟩) :=
  ⟨(block_signal_retry_keeps_route 5 ⟨"detail-url", some "p1", 0⟩ 403 ⟨["p1", "p2"], some "p1"⟩ 0
      (Or.inl rfl) (by decide)).1,
   (block_signal_retry_keeps_route 5 ⟨"detail-url", some "p1", 0⟩ 403 ⟨["p1", "p2"], some "p1"⟩ 0
      (Or.inl rfl) (by decide)).2.2 "p1" rfl⟩

/-- C9 counterexample: the spider's inline `UserAgent().random` when building
a detail request has no fallback — with the primary identity source
unavailable this identity-assignment path fails, so an error condition is
observable on it. -/
theorem identity_assignment_cex :
    (spider_build_detail_ua none 0).isOk = false := by
  decide

/-- C9 as amended: the middleware's identity assignment never fails — it
always produces a User-Agent header, falling back to the embedded list when
the primary source is unavailable — but the spider's inline per-request
assignment succeeds only when the primary source is available and fails when
it is not. -/
theorem identity_assignment_paths :
    ∀ (src : Option (List String)) (k : Nat) (hdr : Option String),
      (mw_process_request (mw_init src) k hdr).isSome = true ∧
      (∀ pool, src = some pool → spider_build_detail_ua src k = Except.ok (pick_ua pool k)) ∧
      (src = none → (spider_build_detail_ua src k).isOk = false) := by
  intro src k hdr
  refine ⟨?_, ?_, ?_⟩
  · cases src <;> cases hdr <;> rfl
  · intro pool hp
    subst hp
    rfl
  · intro hn
    subst hn
    rfl

/-- Witness for the amended C9 at concrete inputs. -/
theorem identity_assignment_paths_witness :
    (mw_process_request (mw_init none) 0 none).isSome = true ∧
    spider_build_detail_ua (some ["UA-1"]) 0 = Except.ok (pick_ua ["UA-1"] 0) ∧
    (spider_build_detail_ua (none : Option (List String)) 3).isOk = false :=
  ⟨(identity_assignment_paths none 0 none).1,
   (identity_assignment_paths (some ["UA-1"]) 0 none).2.1 ["UA-1"] rfl,
   (identity_assignment_paths none 3 none).2.2 rfl⟩

lemma cast_entry_none (t : String) (s : Nat) : cast_entry t (s, none) = none := rfl

lemma cast_entry_some (t : String) (s : Nat) (name : String) :
    cast_entry t (s, some name) = some ⟨t, name, s⟩ := rfl

lemma positions_sublist_range (t : String) :
    ∀ (l : List (Option String)) (start : Nat),
      (((List.enumFrom start l).filterMap (cast_entry t)).map ActorItem.position_order).Sublist
        (List.range' start l.length) := by
  intro l
  induction l with
  | nil => intro start; simp
  | cons x xs ih =>
    intro start
    rw [List.enumFrom_cons, List.filterMap_cons, List.length_cons, List.range'_succ]
    cases x with
    | none =>
      rw [cast_entry_none]
      exact (ih (start + 1)).cons start
    | some name =>
      rw [cast_entry_some, List.map_cons]
      exact (ih (start + 1)).cons₂ start

lemma positions_complete (t : String) :
    ∀ (l : List (Option String)) (start : Nat), (∀ x ∈ l, x ≠ none) →
      ((List.enumFrom start l).filterMap (cast_entry t)).map ActorItem.position_order =
        List.range' start l.length := by
  intro l
  induction l with
  | nil => intro start _; rfl
  | cons x xs ih =>
    intro start hall
    cases x with
    | none => exact absurd rfl (hall none (List.mem_cons_self _ _))
    | some name =>
      rw [List.enumFrom_cons, List.filterMap_cons, cast_entry_some, List.map_cons,
        List.length_cons, List.range'_succ]
      exact congrArg (List.cons start)
        (ih (start + 1) fun y hy => hall y (List.mem_cons_of_mem _ hy))

lemma entries_match_document (t : String) :
    ∀ (l : List (Option String)) (start : Nat),
      ∀ e ∈ (List.enumFrom start l).filterMap (cast_entry t),
        e.movie_title = t ∧ start ≤ e.position_order ∧
        l[e.position_order - start]? = some (some e.actor_name) := by
  intro l
  induction l with
  | nil => intro start e he; simp at he
  | cons x xs ih =>
    intro start e he
    rw [List.enumFrom_cons, List.filterMap_cons] at he
    cases x with
    | none =>
      rw [cast_entry_none] at he
      obtain ⟨h1, h2, h3⟩ := ih (start + 1) e he
      refine ⟨h1, by omega, ?_⟩
      have ho : e.position_order - start = (e.position_order - (start + 1)) + 1 := by omega
      rw [ho, List.getElem?_cons_succ]
      exact h3
    | some name =>
      rw [cast_entry_some, List.mem_cons] at he
      cases he with
      | inl h =>
        subst h
        exact ⟨rfl, Nat.le_refl start, by simp⟩
      | inr h =>
        obtain ⟨h1, h2, h3⟩ := ih (start + 1) e h
        refine ⟨h1, by omega, ?_⟩
        have ho : e.position_order - start = (e.position_order - (start + 1)) + 1 := by omega
        rw [ho, List.getElem?_cons_succ]
        exact h3

/-- C2 counterexample: a cast section with three items whose middle item has
no actor link. The entry is skipped, but `enumerate(..., start=1)` keeps
numbering by document position, so the returned positions are [1, 3] — not
the contiguous range 1..len claimed. -/
theorem extract_actors_positions_cex :
    ([some "Tim Robbins", none, some "Bob Gunton"] : List (Option String)).length = 3 ∧
    extract_actors (some [some "Tim Robbins", none, some "Bob Gunton"])
        "The Shawshank Redemption" =
      [⟨"The Shawshank Redemption", "Tim Robbins", 1⟩,
       ⟨"The Shawshank Redemption", "Bob Gunton", 3⟩] ∧
    ¬ ((extract_actors (some [some "Tim Robbins", none, some "Bob Gunton"])
          "The Shawshank Redemption").map ActorItem.position_order =
        List.range' 1 (extract_actors (some [some "Tim Robbins", none, some "Bob Gunton"])
          "The Shawshank Redemption").length) := by
  refine ⟨rfl, rfl, by decide⟩

/-- C2 as amended: `_extract_actors` returns at most 3 entries; their
`position_order` values are a subsequence of [1, 2, 3] and equal the 1-based
document indices of the corresponding cast items among the first three (each
entry's name is the actor at its document position; an item without a name is
skipped and its position omitted); when every one of the first min(N, 3)
items carries a name, the positions are exactly the contiguous range
1..min(N, 3). -/
theorem extract_actors_positions :
    ∀ (cs : Option (List (Option String))) (t : String),
      (extract_actors cs t).length ≤ 3 ∧
      ((extract_actors cs t).map ActorItem.position_order).Sublist [1, 2, 3] ∧
      ∀ divs, cs = some divs →
        (∀ e ∈ extract_actors cs t,
          e.movie_title = t ∧ 1 ≤ e.position_order ∧
          (divs.take 3)[e.position_order - 1]? = some (some e.actor_name)) ∧
        ((∀ x ∈ divs.take 3, x ≠ none) →
          (extract_actors cs t).map ActorItem.position_order =
            List.range' 1 (min divs.length 3)) := by
  intro cs t
  refine ⟨?_, ?_, ?_⟩
  · cases cs with
    | none => simp [extract_actors]
    | some divs =>
      calc (extract_actors (some divs) t).length
          ≤ (List.enumFrom 1 (divs.take 3)).length := List.length_filterMap_le _ _
        _ = (divs.take 3).length := List.enumFrom_length
        _ ≤ 3 := List.length_take_le _ _
  · cases cs with
    | none => simp [extract_actors]
    | some divs =>
      have h1 := positions_sublist_range t (divs.take 3) 1
      have h2 : (List.range' 1 ((divs.take 3).length)).Sublist (List.range' 1 3) :=
        List.range'_sublist_right.mpr (List.length_take_le _ _)
      have h3 : List.range' 1 3 = [1, 2, 3] := rfl
      rw [h3] at h2
      exact h1.trans h2
  · intro divs hcs
    subst hcs
    refine ⟨fun e he => entries_match_document t (divs.take 3) 1 e he, fun hall => ?_⟩
    rw [show extract_actors (some divs) t =
        (List.enumFrom 1 (divs.take 3)).filterMap (cast_entry t) from rfl,
      positions_complete t (divs.take 3) 1 hall, List.length_take, Nat.min_comm]

/-- Witness for the amended C2 at a concrete input. -/
theorem extract_actors_positions_witness :
    (extract_actors (some [some "A", some "B", some "C", some "D"]) "T").map
        ActorItem.position_order =
      List.range' 1 (min ([some "A", some "B", some "C", some "D"] :
        List (Option String)).length 3) :=
  ((extract_actors_positions (some [some "A", some "B", some "C", some "D"]) "T").2.2
    [some "A", some "B", some "C", some "D"] rfl).2 (by decide)

/-- C8: for a well-formed structured listing with N elements, `parse` yields
exactly the first min(N, 50) elements as work items, in listing order
(title and detail URL at index i come from element i). -/
theorem parse_index_top50_order :
    ∀ (elems : List IndexMovie) (i : Nat),
      parse_index ⟨some (ScriptContent.valid elems)⟩ =
        ParseResult.ok (index_work_items elems) ∧
      (index_work_items elems).length = min elems.length 50 ∧
      (i < (index_work_items elems).length →
        (index_work_items elems)[i]?.map WorkItem.title = elems[i]?.map IndexMovie.name ∧
        (index_work_items elems)[i]?.map WorkItem.url = elems[i]?.map IndexMovie.url) := by
  intro elems i
  have hiw : index_work_items elems = (elems.take 50).map
      (fun m => WorkItem.mk m.name m.aggregateRating m.duration m.url) := rfl
  refine ⟨rfl, ?_, ?_⟩
  · rw [hiw, List.length_map, List.length_take, Nat.min_comm]
  · intro hi
    rw [hiw, List.length_map, List.length_take] at hi
    have hi50 : i < 50 := Nat.lt_of_lt_of_le hi (Nat.min_le_left _ _)
    rw [hiw]
    constructor <;>
    · rw [List.getElem?_map, List.getElem?_take, if_pos hi50]
      cases elems[i]? <;> rfl

/-- Witness for C8 at a concrete input. -/
theorem parse_index_top50_order_witness :
    (index_work_items [⟨"The Shawshank Redemption", "url-1", none, none⟩,
        ⟨"The Godfather", "url-2", none, none⟩]).length = min 2 50 ∧
    (index_work_items [⟨"The Shawshank Redemption", "url-1", none, none⟩,
        ⟨"The Godfather", "url-2", none, none⟩])[1]?.map WorkItem.title =
      ([⟨"The Shawshank Redemption", "url-1", none, none⟩,
        ⟨"The Godfather", "url-2", none, none⟩] : List IndexMovie)[1]?.map IndexMovie.name :=
  ⟨(parse_index_top50_order [⟨"The Shawshank Redemption", "url-1", none, none⟩,
      ⟨"The Godfather", "url-2", none, none⟩] 1).2.1,
   ((parse_index_top50_order [⟨"The Shawshank Redemption", "url-1", none, none⟩,
      ⟨"The Godfather", "url-2", none, none⟩] 1).2.2 (by decide)).1⟩

end ImdbScraper
